import Mathlib

/-!
Shallow embedding of the cocaine-framework-go worker core
(src/cocaine12/worker.go) and of the locator resolver client
(src/unnamed/part_000, package cocaine), together with theorems settling
the frozen claims about them.

Conventions of the embedding:
* machine integers (uint64 session ids, int codes) are modelled as Nat/Int;
  no arithmetic that could overflow is performed on them;
* Go maps are modelled as association lists with insert-or-replace,
  erase and lookup operations;
* goroutine interleaving is modelled by explicit event traces fed to the
  worker loop, and Go channels by lists of the values that crossed them;
* durations are in nanoseconds, as in Go (time.Second = 1e9).
-/

namespace Cocaine12

/-- Nanoseconds per second, mirroring Go time.Second. -/
def second : Nat := 1000000000

/-- Constant from worker.go: heartbeatTimeout = time.Second * 10. -/
def heartbeatTimeout : Nat := second * 10

/-- Constant from worker.go: disownTimeout = time.Second * 5. -/
def disownTimeout : Nat := second * 5

/-- Constant from worker.go: ErrorNoEventHandler = 200. -/
def ErrorNoEventHandler : Int := 200

/-- Constant from worker.go: ErrorPanicInHandler = 100. -/
def ErrorPanicInHandler : Int := 100

/-- Wire frame-type values. The Go constants (chunkType, chokeType, ...)
live in a file that is not under src; the numeric values are the wire
contract of spec section 6. -/
def handshakeType : Nat := 0

def heartbeatType : Nat := 1

def terminateType : Nat := 2

def invokeType : Nat := 3

def chunkType : Nat := 4

def errorType : Nat := 5

def chokeType : Nat := 6

/-- Payload elements: self-describing values decoded from the wire. -/
inductive PValue
  | vstr (s : String)
  | vint (n : Int)
  | vbytes (b : List Nat)
  deriving DecidableEq

/-- Message is a frame (type, session, payload), as in the Go Message
struct used by worker.go. -/
structure Message where
  msgType : Nat
  session : Nat
  payload : List PValue
  deriving DecidableEq

/-- Modelled from the spec: getEventName is not under src; spec section 4.4
says the event name is the payload element at position 0 read as a utf-8
string, and worker.go treats a failure as a corrupted message. -/
def getEventName (msg : Message) : Option String :=
  match msg.payload with
  | PValue.vstr s :: _ => some s
  | _ => none

/-- Modelled from the spec: the request stream object (newRequest is not
under src). Spec section 4.3: created empty; push appends; Close marks it
closed and later pushes are dropped. -/
structure ReqStream where
  queued : List Message
  closed : Bool
  deriving DecidableEq

/-- Modelled from the spec: newRequest creates an empty open stream. -/
def newRequest : ReqStream := ⟨[], false⟩

/-- Modelled from the spec: push appends unless the stream is closed. -/
def ReqStream.push (r : ReqStream) (m : Message) : ReqStream :=
  if r.closed then r else { r with queued := r.queued ++ [m] }

/-- Modelled from the spec: Close marks the stream closed. -/
def ReqStream.closeStream (r : ReqStream) : ReqStream :=
  { r with closed := true }

/-- Lookup in an association list, modelling Go map indexing. -/
def lookupS {α : Type} : List (Nat × α) → Nat → Option α
  | [], _ => none
  | (k, v) :: t, s => if k = s then some v else lookupS t s

/-- Insert-or-replace in an association list, modelling Go map assignment. -/
def insertS {α : Type} : List (Nat × α) → Nat → α → List (Nat × α)
  | [], s, v => [(s, v)]
  | (k, w) :: t, s, v => if k = s then (s, v) :: t else (k, w) :: insertS t s v

/-- Erase a key from an association list, modelling Go map delete. -/
def eraseS {α : Type} : List (Nat × α) → Nat → List (Nat × α)
  | [], _ => []
  | (k, w) :: t, s => if k = s then t else (k, w) :: eraseS t s

/-- Update the value stored under a key, when present. -/
def updateS {α : Type} (t : List (Nat × α)) (s : Nat) (f : α → α) :
    List (Nat × α) :=
  match lookupS t s with
  | some v => insertS t s (f v)
  | none => t

/-- Record of one spawned handler task: the go statements in
Worker.onMessage. The handle identifies the request stream handed to the
task; fallback tells which of the two go statements ran. -/
structure SpawnRec where
  event : String
  session : Nat
  handle : Nat
  fallback : Bool
  deriving DecidableEq

/-- The error returned by a disowned worker loop (ErrDisowned). -/
inductive WorkerError
  | errDisowned
  deriving DecidableEq

/-- Worker state, following the Go Worker struct. The session table maps
session ids to request-stream handles; stream states live in a separate
store, mirroring the Go pointer indirection (reqStream.push mutates the
object, not the table). Timers are modelled by an Option duration
(none = stopped, some d = armed with duration d). out is the list of
frames the worker itself sent on the connection; spawned is the log of
handler tasks started by go statements. -/
structure Worker where
  sessions : List (Nat × Nat)
  streams : List (Nat × ReqStream)
  nextStream : Nat
  handlers : List String
  heartbeatTimer : Option Nat
  disownTimer : Option Nat
  stopped : Bool
  connClosed : Bool
  out : List Message
  spawned : List SpawnRec
  deriving DecidableEq

/-- Frame sent by newHandshake(id): type handshake, session 0,
payload the worker id (spec section 6). -/
def handshakeMessage (id : String) : Message :=
  ⟨handshakeType, 0, [PValue.vstr id]⟩

/-- Frame sent by newHeartbeatMessage(): type heartbeat, session 0,
empty payload (spec section 6). -/
def heartbeatMessage : Message := ⟨heartbeatType, 0, []⟩

/-- Embedding of newWorker(conn, id): empty session table and handler map,
both timers created and immediately stopped (hence disarmed), and the
handshake sent before returning. The connection is modelled by its closed
flag, initially false. -/
def newWorker (id : String) : Worker :=
  { sessions := []
    streams := []
    nextStream := 0
    handlers := []
    heartbeatTimer := none
    disownTimer := none
    stopped := false
    connClosed := false
    out := [handshakeMessage id]
    spawned := [] }

/-- Embedding of Worker.On: register a handler for an event. Handler
bodies run in their own tasks and are modelled separately; the worker
state only needs the set of registered event names. -/
def Worker.on (w : Worker) (event : String) : Worker :=
  if w.handlers.contains event then w
  else { w with handlers := w.handlers ++ [event] }

/-- Embedding of Worker.Stop: idempotent; closes the stopped channel and
the connection. -/
def workerStop (w : Worker) : Worker :=
  if w.stopped then w else { w with stopped := true, connClosed := true }

/-- Embedding of Worker.onDisown: it just calls Stop. -/
def onDisown (w : Worker) : Worker := workerStop w

/-- Embedding of Worker.onTerminate: it just calls Stop. -/
def onTerminate (w : Worker) : Worker := workerStop w

/-- Embedding of Worker.onHeartbeat: send a heartbeat frame (dropped if
the connection is closed, per the double select), then arm the disown
timer with disownTimeout and the heartbeat timer with heartbeatTimeout. -/
def onHeartbeat (w : Worker) : Worker :=
  { w with
    out := if w.connClosed then w.out else w.out ++ [heartbeatMessage]
    disownTimer := some disownTimeout
    heartbeatTimer := some heartbeatTimeout }

/-- Embedding of Worker.onMessage, the inbound dispatch switch of
worker.go. chunk: push onto the session stream if the session is live.
choke: close the stream and delete the table entry. invoke: extract the
event name (drop the frame if that fails), create fresh request and
response streams, install the request stream under this session, then
spawn the handler task, or the fallback task when no handler is
registered. heartbeat: stop the disown timer. terminate: stop the worker.
Anything else is logged and dropped. -/
def onMessage (w : Worker) (msg : Message) : Worker :=
  if msg.msgType = chunkType then
    match lookupS w.sessions msg.session with
    | some h => { w with streams := updateS w.streams h (fun r => r.push msg) }
    | none => w
  else if msg.msgType = chokeType then
    match lookupS w.sessions msg.session with
    | some h =>
        { w with
          streams := updateS w.streams h ReqStream.closeStream
          sessions := eraseS w.sessions msg.session }
    | none => w
  else if msg.msgType = invokeType then
    match getEventName msg with
    | none => w
    | some event =>
        let h := w.nextStream
        { w with
          streams := insertS w.streams h newRequest
          sessions := insertS w.sessions msg.session h
          nextStream := h + 1
          spawned := w.spawned ++
            [⟨event, msg.session, h, !w.handlers.contains event⟩] }
  else if msg.msgType = heartbeatType then
    { w with disownTimer := none }
  else if msg.msgType = terminateType then
    onTerminate w
  else
    w

/-- Embedding of the double select forwarding a handler frame to the
connection in Worker.loop: dropped when the connection is closed. -/
def forwardOut (w : Worker) (m : Message) : Worker :=
  if w.connClosed then w else { w with out := w.out ++ [m] }

/-- One resolution of the select statement in Worker.loop. inbound m is a
successful receive on conn.Read(); inboundClosed is the receive with
ok = false on the closed read channel; heartbeatFire and disownFire are
the timer channels; handlerOut m comes from fromHandlers; stoppedSignal
is a receive on the closed stopped channel. -/
inductive LoopEvent
  | inbound (m : Message)
  | inboundClosed
  | heartbeatFire
  | disownFire
  | handlerOut (m : Message)
  | stoppedSignal
  deriving DecidableEq

/-- Embedding of the for-select part of Worker.loop over an explicit trace
of select resolutions. err is the loop-local error variable. Returns none
when the trace ends without the stopped case having been selected, and
some err when the stopped case returns. -/
def loopRun (w : Worker) (err : Option WorkerError) :
    List LoopEvent → Option (Option WorkerError)
  | [] => none
  | e :: es =>
    match e with
    | LoopEvent.inbound m => loopRun (onMessage w m) err es
    | LoopEvent.inboundClosed => loopRun w err es
    | LoopEvent.heartbeatFire => loopRun (onHeartbeat w) err es
    | LoopEvent.disownFire => loopRun (onDisown w) (some WorkerError.errDisowned) es
    | LoopEvent.handlerOut m => loopRun (forwardOut w m) err es
    | LoopEvent.stoppedSignal => some err

/-- Embedding of Worker.loop: send the first heartbeat (arming the
timers), then enter the select loop with a nil error. -/
def workerLoop (w : Worker) (events : List LoopEvent) :
    Option (Option WorkerError) :=
  loopRun (onHeartbeat w) none events

/-- Embedding of Worker.Run: register the given handlers, then loop. -/
def workerRun (w : Worker) (hs : List String) (events : List LoopEvent) :
    Option (Option WorkerError) :=
  workerLoop (hs.foldl Worker.on w) events

/-- True when a disownFire event occurs strictly before the first
stoppedSignal of the trace, i.e. when the disown timer fires during the
run that the trace describes. -/
def firedBeforeStop : List LoopEvent → Bool
  | [] => false
  | LoopEvent.stoppedSignal :: _ => false
  | LoopEvent.disownFire :: _ => true
  | _ :: es => firedBeforeStop es

/-- State of one response stream: the session it is bound to, whether it
is finished, and the frames it has emitted towards the worker, in order.
The response-stream implementation (newResponse) is not under src; it is
modelled from the spec, sections 3 and 4.3. -/
structure RespState where
  session : Nat
  finished : Bool
  emitted : List Message
  deriving DecidableEq

/-- Modelled from the spec: newResponse binds a fresh unfinished stream to
the session. -/
def newResponse (session : Nat) : RespState := ⟨session, false, []⟩

/-- Error frame on a session: payload [code, message] (spec section 6). -/
def errorMessage (session : Nat) (code : Int) (text : String) : Message :=
  ⟨errorType, session, [PValue.vint code, PValue.vstr text]⟩

/-- Choke frame on a session: empty payload (spec section 6). -/
def chokeMessage (session : Nat) : Message := ⟨chokeType, session, []⟩

/-- Chunk frame on a session carrying one payload value (spec section 6). -/
def chunkMessage (session : Nat) (v : PValue) : Message :=
  ⟨chunkType, session, [v]⟩

/-- Modelled from the spec: Response.Write emits a chunk frame on the
stream's session; after the stream is finished it is a no-op
(spec sections 3 and 4.3). -/
def RespState.write (r : RespState) (v : PValue) : RespState :=
  if r.finished then r
  else { r with emitted := r.emitted ++ [chunkMessage r.session v] }

/-- Modelled from the spec: Response.ErrorMsg emits an error frame
carrying (code, text) and finishes the stream, which chokes the session:
the dispatch table of section 4.4, section 7 and scenarios S2 and S3 all
have the error frame followed by a choke frame. After the stream is
finished it is a no-op. -/
def RespState.errorMsg (r : RespState) (code : Int) (text : String) :
    RespState :=
  if r.finished then r
  else
    { r with
      finished := true
      emitted := r.emitted ++
        [errorMessage r.session code text, chokeMessage r.session] }

/-- Modelled from the spec: Response.Close emits a choke frame and
finishes the stream; a no-op once finished. -/
def RespState.closeStream (r : RespState) : RespState :=
  if r.finished then r
  else { r with finished := true, emitted := r.emitted ++ [chokeMessage r.session] }

/-- Embedding of DefaultFallbackEventHandler from worker.go: reply with
ErrorMsg(ErrorNoEventHandler, "There is no handler for event <event>"). -/
def DefaultFallbackEventHandler (event : String) (response : RespState) :
    RespState :=
  response.errorMsg ErrorNoEventHandler ("There is no handler for event " ++ event)

/-- Outcome of running a handler task body: it either returns, or panics
with some description, leaving the response stream in some state. -/
inductive HandlerOutcome
  | done (r : RespState)
  | panicked (info : String) (r : RespState)
  deriving DecidableEq

/-- Embedding of recoverTrap from worker.go: a deferred recover around the
task body; on panic it calls
ErrorMsg(ErrorPanicInHandler, msg) on the response stream, where msg is
the format "Error in event: <event>, exception: <info>" with the event
name in single quotes. -/
def recoverTrap (event : String) (outcome : HandlerOutcome) : RespState :=
  match outcome with
  | HandlerOutcome.done r => r
  | HandlerOutcome.panicked info r =>
      r.errorMsg ErrorPanicInHandler
        ("Error in event: '" ++ event ++ "', exception: " ++ info)

/-- Embedding of Worker.callFallbackHandler: run the fallback handler body
inside the recoverTrap. -/
def callFallbackHandler (fallback : String → RespState → HandlerOutcome)
    (event : String) (response : RespState) : RespState :=
  recoverTrap event (fallback event response)

end Cocaine12

namespace Locator

/-- ResolveResult from src/unnamed/part_000: success flag, embedded
Endpoint (host, port), version and API table. The Go API field
map[int]string is modelled as an association list. -/
structure ResolveResult where
  success : Bool
  host : String
  port : Int
  version : Int
  api : List (Int × String)
  deriving DecidableEq

/-- Zero value of ResolveResult, as produced by var res ResolveResult.
Resolve starts from it and explicitly sets success = false. -/
def zeroResolveResult : ResolveResult := ⟨false, "", 0, 0, []⟩

/-- One framed message produced by the stream unpacker inside Resolve.
chunkF carries the raw bytes of payload position 0 of a CHUNK frame;
chokeF is a CHOKE frame; otherF stands for any other type id, which the
switch in Resolve ignores. -/
inductive LFrame
  | chunkF (raw : List Nat)
  | chokeF
  | otherF (id : Nat)
  deriving DecidableEq

/-- Decoder abstraction for codec.NewDecoderBytes(...).Decode(&res): given
the raw chunk bytes it yields the record the decode left in res together
with whether the decode succeeded (err == nil and no panic). On failure
the record component is whatever the failed decode left behind (the zero
value when nothing was written); the unexported success field is never
written by the decoder. -/
def Dec : Type := List Nat → ResolveResult × Bool

/-- Embedding of Locator.unpackchunk: the record is returned whether or
not the decode succeeded; a failure is only logged (and a panic is
recovered and logged). -/
def unpackchunk (dec : Dec) (raw : List Nat) : ResolveResult :=
  (dec raw).1

/-- Inner for-loop of Resolve over one batch of unpacked messages: a CHUNK
overwrites resolveresult with unpackchunk of its payload and then sets
success = true (unconditionally); a CHOKE sets closed = true; every
message of the batch is processed, even after a CHOKE. -/
def processBatch (dec : Dec) (acc : ResolveResult) (closed : Bool) :
    List LFrame → ResolveResult × Bool
  | [] => (acc, closed)
  | LFrame.chunkF raw :: fs =>
      processBatch dec { unpackchunk dec raw with success := true } closed fs
  | LFrame.chokeF :: fs => processBatch dec acc true fs
  | LFrame.otherF _ :: fs => processBatch dec acc closed fs

/-- Outer loop of Resolve: each element of the list is the batch of
messages unpacked from one receive on SocketIO.Read(). The loop exits
after the first batch containing a CHOKE, yielding the accumulated
result. When the read channel closes first (the list is exhausted), the
Go loop keeps receiving zero values that unpack to no messages and never
exits, so no result is ever produced: modelled as none. -/
def resolveRun (dec : Dec) : List (List LFrame) → ResolveResult →
    Option ResolveResult
  | [], _ => none
  | b :: bs, acc =>
      let r := processBatch dec acc false b
      if r.2 then some r.1 else resolveRun dec bs r.1

/-- Observable behaviour of the channel returned by Locator.Resolve: the
list of values sent on Out and whether Out was ever closed. The goroutine
sends resolveresult once after the loop exits and contains no close(Out)
statement; when the loop never exits nothing is sent. -/
def resolveOutputs (dec : Dec) (bs : List (List LFrame)) :
    List ResolveResult × Bool :=
  match resolveRun dec bs zeroResolveResult with
  | some r => ([r], false)
  | none => ([], false)

/-- Resolution step as the spec describes it, for comparison with the
code: the last successfully decoded chunk becomes the result with
success = true, and a chunk that fails to decode is ignored. -/
def specBatch (dec : Dec) (acc : ResolveResult) (closed : Bool) :
    List LFrame → ResolveResult × Bool
  | [] => (acc, closed)
  | LFrame.chunkF raw :: fs =>
      specBatch dec
        (if (dec raw).2 then { (dec raw).1 with success := true } else acc)
        closed fs
  | LFrame.chokeF :: fs => specBatch dec acc true fs
  | LFrame.otherF _ :: fs => specBatch dec acc closed fs

/-- Resolution as the spec describes it, mirroring resolveRun but using
the spec's chunk rule. -/
def specResolveRun (dec : Dec) : List (List LFrame) → ResolveResult →
    Option ResolveResult
  | [], _ => none
  | b :: bs, acc =>
      let r := specBatch dec acc false b
      if r.2 then some r.1 else specResolveRun dec bs r.1

/-- True on CHUNK frames. -/
def isChunk : LFrame → Bool
  | LFrame.chunkF _ => true
  | _ => false

/-- True on CHOKE frames. -/
def isChoke : LFrame → Bool
  | LFrame.chokeF => true
  | _ => false

/-- The chunk rule of the code on its own: fold over the frames of a
trace, a CHUNK overwriting the accumulator with its (attempted) decode
and success = true. -/
def chunkStep (dec : Dec) (acc : ResolveResult) : LFrame → ResolveResult
  | LFrame.chunkF raw => { unpackchunk dec raw with success := true }
  | _ => acc

/-- Fold of chunkStep over a list of frames. -/
def chunkFold (dec : Dec) (acc : ResolveResult) (fs : List LFrame) :
    ResolveResult :=
  fs.foldl (chunkStep dec) acc

/-- Batches actually consumed by the Resolve loop: every batch up to and
including the first one that contains a CHOKE. -/
def consumedBatches : List (List LFrame) → List (List LFrame)
  | [] => []
  | b :: bs => if b.any isChoke then [b] else b :: consumedBatches bs

/-- True when some batch of the trace contains a CHOKE, i.e. the Resolve
loop terminates on this trace. -/
def hasChoke (bs : List (List LFrame)) : Bool :=
  bs.any (fun b => b.any isChoke)

/-- Decoder used by the concrete counterexamples: the raw bytes [0] decode
successfully to a non-trivial record, anything else fails to decode and
leaves the zero value. -/
def dec0 : Dec := fun raw =>
  if raw = [0] then
    ({ success := false, host := "h", port := 9, version := 1, api := [] }, true)
  else (zeroResolveResult, false)

end Locator

namespace Cocaine12

/-- Keys of an association list, in order. -/
def keysOf {α : Type} (t : List (Nat × α)) : List Nat := t.map Prod.fst

lemma lookupS_insertS_self {α : Type} (t : List (Nat × α)) (s : Nat) (v : α) :
    lookupS (insertS t s v) s = some v := by
  induction t with
  | nil => simp [insertS, lookupS]
  | cons p t ih =>
    obtain ⟨k, w⟩ := p
    by_cases hk : k = s <;> simp [insertS, lookupS, hk, ih]

lemma lookupS_insertS_ne {α : Type} (t : List (Nat × α)) (s s' : Nat) (v : α)
    (h : s' ≠ s) : lookupS (insertS t s v) s' = lookupS t s' := by
  have hss : ¬ s = s' := fun he => h he.symm
  induction t with
  | nil => simp [insertS, lookupS, hss]
  | cons p t ih =>
    obtain ⟨k, w⟩ := p
    by_cases hk : k = s
    · subst hk
      simp [insertS, lookupS, hss]
    · simp only [insertS, if_neg hk]
      by_cases hk' : k = s' <;> simp [lookupS, hk', ih]

lemma lookupS_eraseS_ne {α : Type} (t : List (Nat × α)) (s s' : Nat)
    (h : s' ≠ s) : lookupS (eraseS t s) s' = lookupS t s' := by
  induction t with
  | nil => simp [eraseS]
  | cons p t ih =>
    obtain ⟨k, w⟩ := p
    by_cases hk : k = s
    · subst hk
      have hks : ¬ k = s' := fun he => h he.symm
      simp [eraseS, lookupS, hks]
    · by_cases hk' : k = s' <;> simp [eraseS, lookupS, hk, hk', ih, h]

lemma keysOf_insertS {α : Type} (t : List (Nat × α)) (s : Nat) (v : α) :
    keysOf (insertS t s v) =
      if s ∈ keysOf t then keysOf t else keysOf t ++ [s] := by
  induction t with
  | nil => simp [insertS, keysOf]
  | cons p t ih =>
    obtain ⟨k, w⟩ := p
    by_cases hk : k = s
    · subst hk
      simp [insertS, keysOf]
    · have hks : ¬ s = k := fun he => hk he.symm
      simp only [insertS, if_neg hk, keysOf, List.map_cons]
      simp only [keysOf] at ih
      rw [ih]
      by_cases hmem : s ∈ List.map Prod.fst t <;>
        simp [hmem, hks, List.mem_cons]

lemma insertS_nodupKeys {α : Type} (t : List (Nat × α)) (s : Nat) (v : α)
    (h : (keysOf t).Nodup) : (keysOf (insertS t s v)).Nodup := by
  rw [keysOf_insertS]
  by_cases hmem : s ∈ keysOf t
  · simpa [hmem] using h
  · simp [hmem, List.nodup_append, h]

lemma eraseS_sublist {α : Type} (t : List (Nat × α)) (s : Nat) :
    List.Sublist (eraseS t s) t := by
  induction t with
  | nil => simp [eraseS]
  | cons p t ih =>
    obtain ⟨k, w⟩ := p
    by_cases hk : k = s
    · simp [eraseS, hk]
    · simpa [eraseS, hk] using ih.cons₂ (k, w)

lemma eraseS_nodupKeys {α : Type} (t : List (Nat × α)) (s : Nat)
    (h : (keysOf t).Nodup) : (keysOf (eraseS t s)).Nodup :=
  h.sublist ((eraseS_sublist t s).map Prod.fst)

lemma onMessage_chunk (w : Worker) (m : Message) (h : m.msgType = chunkType) :
    (onMessage w m).sessions = w.sessions ∧
    (onMessage w m).spawned = w.spawned := by
  unfold onMessage
  rw [h]
  cases hl : lookupS w.sessions m.session <;> simp [hl]

lemma onMessage_choke (w : Worker) (m : Message) (h : m.msgType = chokeType) :
    ((onMessage w m).sessions = w.sessions ∨
      (onMessage w m).sessions = eraseS w.sessions m.session) ∧
    (onMessage w m).spawned = w.spawned := by
  unfold onMessage
  rw [h]
  cases hl : lookupS w.sessions m.session <;>
    simp [hl, chokeType, chunkType]

lemma onMessage_invoke_corrupt (w : Worker) (m : Message)
    (h : m.msgType = invokeType) (he : getEventName m = none) :
    onMessage w m = w := by
  unfold onMessage
  rw [h, he]
  simp [invokeType, chunkType, chokeType]

lemma onMessage_invoke (w : Worker) (m : Message) (e : String)
    (h : m.msgType = invokeType) (he : getEventName m = some e) :
    (onMessage w m).sessions = insertS w.sessions m.session w.nextStream ∧
    (onMessage w m).streams = insertS w.streams w.nextStream newRequest ∧
    (onMessage w m).nextStream = w.nextStream + 1 ∧
    (onMessage w m).spawned = w.spawned ++
      [⟨e, m.session, w.nextStream, !w.handlers.contains e⟩] := by
  unfold onMessage
  rw [h, he]
  simp [invokeType, chunkType, chokeType]

lemma onMessage_heartbeat (w : Worker) (m : Message)
    (h : m.msgType = heartbeatType) :
    onMessage w m = { w with disownTimer := none } := by
  unfold onMessage
  rw [h]
  simp [heartbeatType, chunkType, chokeType, invokeType]

lemma onMessage_terminate (w : Worker) (m : Message)
    (h : m.msgType = terminateType) :
    onMessage w m = onTerminate w := by
  unfold onMessage
  rw [h]
  simp [terminateType, chunkType, chokeType, invokeType, heartbeatType]

lemma onMessage_default (w : Worker) (m : Message)
    (h1 : m.msgType ≠ chunkType) (h2 : m.msgType ≠ chokeType)
    (h3 : m.msgType ≠ invokeType) (h4 : m.msgType ≠ heartbeatType)
    (h5 : m.msgType ≠ terminateType) :
    onMessage w m = w := by
  unfold onMessage
  simp [h1, h2, h3, h4, h5]

lemma onTerminate_sessions (w : Worker) :
    (onTerminate w).sessions = w.sessions := by
  unfold onTerminate workerStop
  by_cases h : w.stopped <;> simp [h]

lemma onTerminate_spawned (w : Worker) :
    (onTerminate w).spawned = w.spawned := by
  unfold onTerminate workerStop
  by_cases h : w.stopped <;> simp [h]

lemma loopRun_result (es : List LoopEvent) :
    ∀ (w : Worker) (err r : Option WorkerError),
      loopRun w err es = some r →
      r = if firedBeforeStop es then some WorkerError.errDisowned else err := by
  induction es with
  | nil => intro w err r h; exact absurd h (by simp [loopRun])
  | cons e es ih =>
    intro w err r h
    cases e with
    | inbound m =>
      simpa [firedBeforeStop] using ih (onMessage w m) err r (by simpa [loopRun] using h)
    | inboundClosed =>
      simpa [firedBeforeStop] using ih w err r (by simpa [loopRun] using h)
    | heartbeatFire =>
      simpa [firedBeforeStop] using ih (onHeartbeat w) err r (by simpa [loopRun] using h)
    | disownFire =>
      have := ih (onDisown w) (some WorkerError.errDisowned) r
        (by simpa [loopRun] using h)
      simp only [firedBeforeStop, if_pos rfl]
      cases hf : firedBeforeStop es <;> simpa [hf] using this
    | handlerOut m =>
      simpa [firedBeforeStop] using ih (forwardOut w m) err r (by simpa [loopRun] using h)
    | stoppedSignal =>
      simp only [loopRun, Option.some.injEq] at h
      simpa [firedBeforeStop] using h.symm

end Cocaine12

namespace Locator

lemma processBatch_eq (dec : Dec) (fs : List LFrame) :
    ∀ (acc : ResolveResult) (closed : Bool),
      processBatch dec acc closed fs =
        (chunkFold dec acc fs, closed || fs.any isChoke) := by
  induction fs with
  | nil => intro acc closed; simp [processBatch, chunkFold]
  | cons f fs ih =>
    intro acc closed
    cases f <;>
      simp [processBatch, chunkFold, chunkStep, isChoke, List.foldl, ih,
        Bool.or_assoc]

lemma resolveRun_some (dec : Dec) (bs : List (List LFrame)) :
    ∀ acc : ResolveResult, hasChoke bs = true →
      resolveRun dec bs acc =
        some (chunkFold dec acc (consumedBatches bs).flatten) := by
  induction bs with
  | nil => intro acc h; exact absurd h (by simp [hasChoke])
  | cons b bs ih =>
    intro acc h
    by_cases hb : b.any isChoke = true
    · simp [resolveRun, processBatch_eq, hb, consumedBatches, chunkFold]
    · have hbs : hasChoke bs = true := by
        simpa [hasChoke, hb] using h
      simp [resolveRun, processBatch_eq, hb, consumedBatches, ih _ hbs,
        chunkFold, List.foldl_append]

lemma resolveRun_none (dec : Dec) (bs : List (List LFrame)) :
    ∀ acc : ResolveResult, hasChoke bs = false →
      resolveRun dec bs acc = none := by
  induction bs with
  | nil => intro acc _; simp [resolveRun]
  | cons b bs ih =>
    intro acc h
    have hb : b.any isChoke = false := by
      cases hb : b.any isChoke <;> simp [hasChoke, hb] at h ⊢
    have hbs : hasChoke bs = false := by
      simpa [hasChoke, hb] using h
    simp [resolveRun, processBatch_eq, hb, ih _ hbs]

lemma chunkFold_success (dec : Dec) (fs : List LFrame) :
    ∀ acc : ResolveResult,
      (chunkFold dec acc fs).success = (acc.success || fs.any isChunk) := by
  induction fs with
  | nil => intro acc; simp [chunkFold]
  | cons f fs ih =>
    intro acc
    simp only [chunkFold] at ih
    cases f <;> simp [chunkFold, chunkStep, isChunk, List.foldl, ih]

end Locator

namespace Cocaine12

lemma onMessage_nodupKeys (w : Worker) (m : Message)
    (hn : (keysOf w.sessions).Nodup) :
    (keysOf (onMessage w m).sessions).Nodup := by
  by_cases h1 : m.msgType = chunkType
  · rw [(onMessage_chunk w m h1).1]; exact hn
  by_cases h2 : m.msgType = chokeType
  · rcases (onMessage_choke w m h2).1 with h | h <;> rw [h]
    · exact hn
    · exact eraseS_nodupKeys _ _ hn
  by_cases h3 : m.msgType = invokeType
  · cases he : getEventName m with
    | none => rw [onMessage_invoke_corrupt w m h3 he]; exact hn
    | some e =>
        rw [(onMessage_invoke w m e h3 he).1]
        exact insertS_nodupKeys _ _ _ hn
  by_cases h4 : m.msgType = heartbeatType
  · rw [onMessage_heartbeat w m h4]; exact hn
  by_cases h5 : m.msgType = terminateType
  · rw [onMessage_terminate w m h5, onTerminate_sessions]; exact hn
  · rw [onMessage_default w m h1 h2 h3 h4 h5]; exact hn

lemma onMessage_sessions_cases (w : Worker) (m : Message) :
    (onMessage w m).sessions = w.sessions ∨
    (m.msgType = invokeType ∧
      (onMessage w m).sessions = insertS w.sessions m.session w.nextStream) ∨
    (m.msgType = chokeType ∧
      (onMessage w m).sessions = eraseS w.sessions m.session) := by
  by_cases h1 : m.msgType = chunkType
  · exact Or.inl (onMessage_chunk w m h1).1
  by_cases h2 : m.msgType = chokeType
  · rcases (onMessage_choke w m h2).1 with h | h
    · exact Or.inl h
    · exact Or.inr (Or.inr ⟨h2, h⟩)
  by_cases h3 : m.msgType = invokeType
  · cases he : getEventName m with
    | none => exact Or.inl (by rw [onMessage_invoke_corrupt w m h3 he])
    | some e => exact Or.inr (Or.inl ⟨h3, (onMessage_invoke w m e h3 he).1⟩)
  by_cases h4 : m.msgType = heartbeatType
  · exact Or.inl (by rw [onMessage_heartbeat w m h4])
  by_cases h5 : m.msgType = terminateType
  · exact Or.inl (by rw [onMessage_terminate w m h5, onTerminate_sessions])
  · exact Or.inl (by rw [onMessage_default w m h1 h2 h3 h4 h5])

/-- Worker used by the concrete counterexamples and witnesses: session 7
is live with request-stream handle 0, one handler is registered for the
event named e. -/
def dupWorker : Worker :=
  { newWorker "w" with
    sessions := [(7, 0)]
    streams := [(0, newRequest)]
    nextStream := 1
    handlers := ["e"] }

/-- An invoke frame for the already-live session 7 naming the event e. -/
def dupInvoke : Message := ⟨invokeType, 7, [PValue.vstr "e"]⟩

end Cocaine12

/-- C1: for every run of the worker loop, if the disown timer fires before
the stop signal is observed, the loop (hence Run) returns ErrDisowned; if
the stop signal is observed without the disown timer having fired (a clean
stop by Stop or by an inbound terminate frame, both of which only close
the stopped channel), the loop returns nil, modelled as none. workerRun
registers the handlers and runs the loop over the given trace of select
resolutions; some r means the loop returned with error value r. -/
theorem C1_run_result (w : Cocaine12.Worker) (hs : List String)
    (events : List Cocaine12.LoopEvent) (r : Option Cocaine12.WorkerError)
    (h : Cocaine12.workerRun w hs events = some r) :
    (Cocaine12.firedBeforeStop events = true →
      r = some Cocaine12.WorkerError.errDisowned) ∧
    (Cocaine12.firedBeforeStop events = false → r = none) := by
  have hr := Cocaine12.loopRun_result events
    (Cocaine12.onHeartbeat (hs.foldl Cocaine12.Worker.on w)) none r
    (by simpa [Cocaine12.workerRun, Cocaine12.workerLoop] using h)
  constructor <;> intro hf <;> rw [hf] at hr <;> simpa using hr

/-- Witness for C1 at a concrete run: the disown timer fires and the loop
then observes the stop signal, returning ErrDisowned. -/
theorem C1_run_result_witness :
    Cocaine12.firedBeforeStop
      [Cocaine12.LoopEvent.disownFire, Cocaine12.LoopEvent.stoppedSignal] = true ∧
    (some Cocaine12.WorkerError.errDisowned : Option Cocaine12.WorkerError)
      = some Cocaine12.WorkerError.errDisowned :=
  ⟨rfl,
    (C1_run_result (Cocaine12.newWorker "w") []
      [Cocaine12.LoopEvent.disownFire, Cocaine12.LoopEvent.stoppedSignal]
      (some Cocaine12.WorkerError.errDisowned) rfl).1 rfl⟩

/-- C2 counterexample: dupWorker has a live entry for session 7 (stream
handle 0) and a handler for event e; the claim says an invoke frame for
session 7 is a protocol error that is dropped, so the table entry would
stay handle 0 and no handler task would be spawned. The code neither
checks nor drops: it replaces the entry and spawns a task. -/
theorem C2_counterexample :
    ¬ (Cocaine12.lookupS
         (Cocaine12.onMessage Cocaine12.dupWorker Cocaine12.dupInvoke).sessions 7
         = some 0 ∧
       (Cocaine12.onMessage Cocaine12.dupWorker Cocaine12.dupInvoke).spawned
         = Cocaine12.dupWorker.spawned) := by
  decide

/-- C2 amended: the session table (a map) holds at most one entry per
session id, and onMessage preserves distinctness of the keys; but an
invoke frame for a session that already has a live entry is not detected:
it is processed like any invoke, the existing entry is replaced by a
fresh request stream (the next free handle) and a handler task (fallback
when no handler is registered) is spawned for it. -/
theorem C2_amended (w : Cocaine12.Worker) (m : Cocaine12.Message) (e : String)
    (hn : (Cocaine12.keysOf w.sessions).Nodup) :
    (Cocaine12.keysOf (Cocaine12.onMessage w m).sessions).Nodup ∧
    (m.msgType = Cocaine12.invokeType → Cocaine12.getEventName m = some e →
      (Cocaine12.onMessage w m).sessions
        = Cocaine12.insertS w.sessions m.session w.nextStream ∧
      Cocaine12.lookupS (Cocaine12.onMessage w m).sessions m.session
        = some w.nextStream ∧
      (Cocaine12.onMessage w m).spawned = w.spawned ++
        [⟨e, m.session, w.nextStream, !w.handlers.contains e⟩]) := by
  refine ⟨Cocaine12.onMessage_nodupKeys w m hn, fun h he => ?_⟩
  obtain ⟨hsess, hstr, hnext, hsp⟩ := Cocaine12.onMessage_invoke w m e h he
  exact ⟨hsess, by rw [hsess]; exact Cocaine12.lookupS_insertS_self _ _ _, hsp⟩

/-- Witness for C2 amended at the concrete duplicate invoke on dupWorker:
the live entry for session 7 is replaced by the fresh handle 1 and a
handler task is spawned. -/
theorem C2_amended_witness :
    (Cocaine12.keysOf
      (Cocaine12.onMessage Cocaine12.dupWorker Cocaine12.dupInvoke).sessions).Nodup ∧
    Cocaine12.lookupS
      (Cocaine12.onMessage Cocaine12.dupWorker Cocaine12.dupInvoke).sessions 7
      = some 1 ∧
    (Cocaine12.onMessage Cocaine12.dupWorker Cocaine12.dupInvoke).spawned
      = Cocaine12.dupWorker.spawned ++ [⟨"e", 7, 1, false⟩] :=
  ⟨(C2_amended Cocaine12.dupWorker Cocaine12.dupInvoke "e" (by decide)).1,
   ((C2_amended Cocaine12.dupWorker Cocaine12.dupInvoke "e" (by decide)).2
      rfl rfl).2.1,
   ((C2_amended Cocaine12.dupWorker Cocaine12.dupInvoke "e" (by decide)).2
      rfl rfl).2.2⟩

/-- C3 counterexample: a handler task for event explode that first closes
its response stream and then panics with boom. The trap recovers, but
ErrorMsg on a finished stream is a no-op (spec section 4.3), so no error
frame with code 100 is emitted for this panicking task: the only frame on
the session is the choke from the explicit Close. This refutes the claim
for tasks that panic after finishing their stream. -/
theorem C3_counterexample :
    (Cocaine12.recoverTrap "explode"
      (Cocaine12.HandlerOutcome.panicked "boom"
        ((Cocaine12.newResponse 5).closeStream))).emitted
      = [Cocaine12.chokeMessage 5] ∧
    ((Cocaine12.recoverTrap "explode"
      (Cocaine12.HandlerOutcome.panicked "boom"
        ((Cocaine12.newResponse 5).closeStream))).emitted.all
        (fun fr => fr.msgType != Cocaine12.errorType)) = true := by
  constructor <;> decide

/-- C3 amended: for every spawned handler task (the fallback task runs
under the same recoverTrap via callFallbackHandler) that panics while its
response stream is not yet finished, the trap converts the panic into an
error frame on that session with code 100 (ErrorPanicInHandler) and a
message containing the panic description, followed by a choke frame on
that session; a task that panics after finishing its stream emits nothing
further. recoverTrap is total, so the trap itself never panics. -/
theorem C3_amended (event info : String) (r : Cocaine12.RespState)
    (h : r.finished = false) :
    (Cocaine12.recoverTrap event
        (Cocaine12.HandlerOutcome.panicked info r)).emitted
      = r.emitted ++
        [Cocaine12.errorMessage r.session 100
          ("Error in event: '" ++ event ++ "', exception: " ++ info),
         Cocaine12.chokeMessage r.session] ∧
    ∃ pre post : String,
      ("Error in event: '" ++ event ++ "', exception: " ++ info)
        = pre ++ info ++ post := by
  constructor
  · simp [Cocaine12.recoverTrap, Cocaine12.RespState.errorMsg, h,
      Cocaine12.ErrorPanicInHandler]
  · exact ⟨"Error in event: '" ++ event ++ "', exception: ", "", by
      simp [String.append_assoc]⟩

/-- Witness for C3 amended at a fresh response stream on session 5. -/
theorem C3_amended_witness :
    (Cocaine12.newResponse 5).finished = false ∧
    (Cocaine12.recoverTrap "explode"
        (Cocaine12.HandlerOutcome.panicked "boom"
          (Cocaine12.newResponse 5))).emitted
      = (Cocaine12.newResponse 5).emitted ++
        [Cocaine12.errorMessage 5 100
          ("Error in event: '" ++ "explode" ++ "', exception: " ++ "boom"),
         Cocaine12.chokeMessage 5] :=
  ⟨rfl, (C3_amended "explode" "boom" (Cocaine12.newResponse 5) rfl).1⟩

/-- C4: for an invoke frame naming an event with no registered handler,
Worker.onMessage spawns the fallback task on a fresh response stream for
that session; the default fallback handler replies with an error frame
carrying code 200 (ErrorNoEventHandler) and the message
"There is no handler for event <event>", followed by a choke frame on
the same session. -/
theorem C4_default_fallback (event : String) (session : Nat) :
    (Cocaine12.DefaultFallbackEventHandler event
        (Cocaine12.newResponse session)).emitted
      = [Cocaine12.errorMessage session 200
          ("There is no handler for event " ++ event),
         Cocaine12.chokeMessage session] := rfl

/-- C5 counterexample: with decoder dec0 the raw chunk [1] fails to
decode. On the trace carrying that single chunk and then a choke, the
claim says the failed chunk is ignored and success stays false; the code
(resolveRun) overwrites the result with the failed-decode record and sets
success = true unconditionally, while the resolution rule written from
the spec's words (specResolveRun) keeps success = false. -/
theorem C5_counterexample :
    (Locator.dec0 [1]).2 = false ∧
    Locator.resolveRun Locator.dec0
        [[Locator.LFrame.chunkF [1], Locator.LFrame.chokeF]]
        Locator.zeroResolveResult
      = some { Locator.zeroResolveResult with success := true } ∧
    Locator.specResolveRun Locator.dec0
        [[Locator.LFrame.chunkF [1], Locator.LFrame.chokeF]]
        Locator.zeroResolveResult
      = some Locator.zeroResolveResult ∧
    Locator.resolveRun Locator.dec0
        [[Locator.LFrame.chunkF [1], Locator.LFrame.chokeF]]
        Locator.zeroResolveResult
      ≠ Locator.specResolveRun Locator.dec0
        [[Locator.LFrame.chunkF [1], Locator.LFrame.chokeF]]
        Locator.zeroResolveResult := by
  refine ⟨rfl, rfl, rfl, ?_⟩
  decide

/-- C5 amended: when a choke eventually arrives, the result returned by
Resolve is the fold of the chunk rule of the code over every frame the
loop consumed: each chunk, decoded successfully or not, overwrites the
result with its (possibly zero or partial) decode and sets
success = true; hence success is true as soon as any chunk was received
before the loop exited, and false only when no chunk was received. -/
theorem C5_amended (dec : Locator.Dec) (bs : List (List Locator.LFrame))
    (h : Locator.hasChoke bs = true) :
    Locator.resolveRun dec bs Locator.zeroResolveResult
      = some (Locator.chunkFold dec Locator.zeroResolveResult
          (Locator.consumedBatches bs).flatten) ∧
    (Locator.chunkFold dec Locator.zeroResolveResult
        (Locator.consumedBatches bs).flatten).success
      = (Locator.consumedBatches bs).flatten.any Locator.isChunk := by
  refine ⟨Locator.resolveRun_some dec bs Locator.zeroResolveResult h, ?_⟩
  simp [Locator.chunkFold_success, Locator.zeroResolveResult]

/-- Witness for C5 amended on a concrete trace: one successfully decoded
chunk followed by a choke. -/
theorem C5_amended_witness :
    Locator.hasChoke [[Locator.LFrame.chunkF [0], Locator.LFrame.chokeF]] = true ∧
    Locator.resolveRun Locator.dec0
        [[Locator.LFrame.chunkF [0], Locator.LFrame.chokeF]]
        Locator.zeroResolveResult
      = some (Locator.chunkFold Locator.dec0 Locator.zeroResolveResult
          (Locator.consumedBatches
            [[Locator.LFrame.chunkF [0], Locator.LFrame.chokeF]]).flatten) :=
  ⟨rfl,
    (C5_amended Locator.dec0
      [[Locator.LFrame.chunkF [0], Locator.LFrame.chokeF]] rfl).1⟩

/-- C6 counterexample: on a trace whose single batch is just a choke, one
value is sent on the channel returned by Resolve but the channel is never
closed (the goroutine has no close statement), refuting "and is then
closed"; and when the connection closes before any frame arrives (empty
trace), no value is ever yielded, refuting "a result with success = false
is still yielded". -/
theorem C6_counterexample :
    (Locator.resolveOutputs Locator.dec0 [[Locator.LFrame.chokeF]]).1
      = [Locator.zeroResolveResult] ∧
    (Locator.resolveOutputs Locator.dec0 [[Locator.LFrame.chokeF]]).2 = false ∧
    Locator.resolveOutputs Locator.dec0 [] = ([], false) := by
  refine ⟨rfl, rfl, rfl⟩

/-- C6 amended: the channel returned by Resolve is never closed; it
yields exactly one ResolveResult value when some batch of the connection
carries a choke frame, and yields nothing at all when the connection
closes without a choke having arrived (the receiving goroutine then spins
forever on the closed read channel). -/
theorem C6_amended (dec : Locator.Dec) (bs : List (List Locator.LFrame)) :
    (Locator.resolveOutputs dec bs).2 = false ∧
    (Locator.hasChoke bs = true →
      (Locator.resolveOutputs dec bs).1.length = 1) ∧
    (Locator.hasChoke bs = false →
      (Locator.resolveOutputs dec bs).1 = []) := by
  refine ⟨?_, fun h => ?_, fun h => ?_⟩
  · unfold Locator.resolveOutputs
    cases hr : Locator.resolveRun dec bs Locator.zeroResolveResult <;> simp [hr]
  · unfold Locator.resolveOutputs
    rw [Locator.resolveRun_some dec bs Locator.zeroResolveResult h]
    rfl
  · unfold Locator.resolveOutputs
    rw [Locator.resolveRun_none dec bs Locator.zeroResolveResult h]

/-- Witness for C6 amended on the concrete one-choke trace. -/
theorem C6_amended_witness :
    (Locator.resolveOutputs Locator.dec0 [[Locator.LFrame.chokeF]]).2 = false ∧
    (Locator.resolveOutputs Locator.dec0 [[Locator.LFrame.chokeF]]).1.length = 1 :=
  ⟨(C6_amended Locator.dec0 [[Locator.LFrame.chokeF]]).1,
   (C6_amended Locator.dec0 [[Locator.LFrame.chokeF]]).2.1 rfl⟩

/-- C7: after onHeartbeat (which the loop calls at startup, in workerLoop,
and on every heartbeat-timer fire, in loopRun) the disown timer is armed
with the disown timeout and the heartbeat timer with the heartbeat
interval; and after an inbound heartbeat frame is dispatched by
onMessage, the disown timer is disarmed. -/
theorem C7_heartbeat_state (w : Cocaine12.Worker) (m : Cocaine12.Message)
    (h : m.msgType = Cocaine12.heartbeatType) :
    (Cocaine12.onHeartbeat w).disownTimer = some Cocaine12.disownTimeout ∧
    (Cocaine12.onHeartbeat w).heartbeatTimer = some Cocaine12.heartbeatTimeout ∧
    (Cocaine12.onMessage w m).disownTimer = none := by
  refine ⟨rfl, rfl, ?_⟩
  rw [Cocaine12.onMessage_heartbeat w m h]

/-- Witness for C7 at the freshly constructed worker receiving an inbound
heartbeat frame. -/
theorem C7_heartbeat_state_witness :
    Cocaine12.heartbeatMessage.msgType = Cocaine12.heartbeatType ∧
    (Cocaine12.onMessage (Cocaine12.newWorker "w")
        Cocaine12.heartbeatMessage).disownTimer = none :=
  ⟨rfl,
    (C7_heartbeat_state (Cocaine12.newWorker "w")
      Cocaine12.heartbeatMessage rfl).2.2⟩

/-- C8 counterexample: the intervals are not configurable at worker
construction. The constructor newWorker(conn, id) takes no timing
parameters, and every constructed worker arms its timers with the
package-level constants: there is no construction whose armed values
differ from heartbeatTimeout and disownTimeout. -/
theorem C8_counterexample :
    ¬ ∃ id : String,
      (Cocaine12.onHeartbeat (Cocaine12.newWorker id)).heartbeatTimer
          ≠ some Cocaine12.heartbeatTimeout ∨
      (Cocaine12.onHeartbeat (Cocaine12.newWorker id)).disownTimer
          ≠ some Cocaine12.disownTimeout := by
  rintro ⟨id, h | h⟩ <;> exact h rfl

/-- C8 amended: the heartbeat interval is the fixed constant 10 seconds
and the disown timeout the fixed constant 5 seconds; newWorker offers no
way to change them, and every constructed worker arms exactly these
values when it heartbeats. -/
theorem C8_amended :
    Cocaine12.heartbeatTimeout = 10 * Cocaine12.second ∧
    Cocaine12.disownTimeout = 5 * Cocaine12.second ∧
    ∀ id : String,
      (Cocaine12.onHeartbeat (Cocaine12.newWorker id)).heartbeatTimer
          = some Cocaine12.heartbeatTimeout ∧
      (Cocaine12.onHeartbeat (Cocaine12.newWorker id)).disownTimer
          = some Cocaine12.disownTimeout := by
  exact ⟨by norm_num [Cocaine12.heartbeatTimeout, Cocaine12.second],
    by norm_num [Cocaine12.disownTimeout, Cocaine12.second],
    fun id => ⟨rfl, rfl⟩⟩

/-- C9: an invoke frame whose payload has no string event name at
position 0 is dropped silently: the worker state is unchanged, so no
session-table entry is created, no stream is bound and no task is
spawned. -/
theorem C9_corrupt_invoke (w : Cocaine12.Worker) (m : Cocaine12.Message)
    (h : m.msgType = Cocaine12.invokeType)
    (he : Cocaine12.getEventName m = none) :
    Cocaine12.onMessage w m = w :=
  Cocaine12.onMessage_invoke_corrupt w m h he

/-- Witness for C9 at an invoke frame with an empty payload. -/
theorem C9_corrupt_invoke_witness :
    Cocaine12.onMessage (Cocaine12.newWorker "w")
        ⟨Cocaine12.invokeType, 2, []⟩
      = Cocaine12.newWorker "w" :=
  C9_corrupt_invoke (Cocaine12.newWorker "w")
    ⟨Cocaine12.invokeType, 2, []⟩ rfl rfl

/-- C10: processing one inbound frame touches the session table only at
that frame's session: the lookup at every other session is unchanged; an
invoke frame either leaves the table unchanged (corrupted payload) or
installs the fresh stream handle under its session; a choke frame either
leaves it unchanged (unknown session) or erases its session; every other
frame type (chunk, heartbeat, terminate, unrecognised) leaves the table
unchanged. -/
theorem C10_frame_effect (w : Cocaine12.Worker) (m : Cocaine12.Message) :
    (∀ s, s ≠ m.session →
      Cocaine12.lookupS (Cocaine12.onMessage w m).sessions s
        = Cocaine12.lookupS w.sessions s) ∧
    (m.msgType = Cocaine12.invokeType →
      (Cocaine12.onMessage w m).sessions = w.sessions ∨
      (Cocaine12.onMessage w m).sessions
        = Cocaine12.insertS w.sessions m.session w.nextStream) ∧
    (m.msgType = Cocaine12.chokeType →
      (Cocaine12.onMessage w m).sessions = w.sessions ∨
      (Cocaine12.onMessage w m).sessions
        = Cocaine12.eraseS w.sessions m.session) ∧
    (m.msgType ≠ Cocaine12.invokeType → m.msgType ≠ Cocaine12.chokeType →
      (Cocaine12.onMessage w m).sessions = w.sessions) := by
  rcases Cocaine12.onMessage_sessions_cases w m with hc | ⟨hi, hc⟩ | ⟨hk, hc⟩
  · exact ⟨fun s _ => by rw [hc], fun _ => Or.inl hc, fun _ => Or.inl hc,
      fun _ _ => hc⟩
  · refine ⟨fun s hs => ?_, fun _ => Or.inr hc, fun hk => ?_, fun hni _ => ?_⟩
    · rw [hc]
      exact Cocaine12.lookupS_insertS_ne _ _ _ _ hs
    · exact absurd (hi.symm.trans hk) (by decide)
    · exact absurd hi hni
  · refine ⟨fun s hs => ?_, fun hi => ?_, fun _ => Or.inr hc, fun _ hnk => ?_⟩
    · rw [hc]
      exact Cocaine12.lookupS_eraseS_ne _ _ _ hs
    · exact absurd (hi.symm.trans hk) (by decide)
    · exact absurd hk hnk

/-- Witness for C10 at an inbound chunk frame for session 7 on dupWorker:
the lookup at the unrelated session 9 is unchanged, and the table itself
is unchanged because a chunk is neither invoke nor choke. -/
theorem C10_frame_effect_witness :
    Cocaine12.lookupS
        (Cocaine12.onMessage Cocaine12.dupWorker
          ⟨Cocaine12.chunkType, 7, []⟩).sessions 9
      = Cocaine12.lookupS Cocaine12.dupWorker.sessions 9 ∧
    (Cocaine12.onMessage Cocaine12.dupWorker
        ⟨Cocaine12.chunkType, 7, []⟩).sessions
      = Cocaine12.dupWorker.sessions :=
  ⟨(C10_frame_effect Cocaine12.dupWorker ⟨Cocaine12.chunkType, 7, []⟩).1 9
      (by decide),
   (C10_frame_effect Cocaine12.dupWorker ⟨Cocaine12.chunkType, 7, []⟩).2.2.2
      (by decide) (by decide)⟩

